import Mathlib

/-!
Shallow embedding of the e2e test script `e2e_playwright/st_image.py` and
verification of its specification claims.

The script is a straight-line Streamlit page: it constructs image-like
values (numpy arrays, GIF byte buffers, SVG strings, a file path, PIL
images) and passes each to the rendering API (`st.image` / column `image`),
interleaved with `st.header` calls and one `st.columns(4)` call.  We embed
the constructed values and the emitted trace of rendering calls, and prove
the claims about them.
-/

/-- A numpy ndarray, embedded as its shape, dtype tag and row-major flat
indexing function (values at flat indices beyond the array size are
irrelevant to every claim). -/
structure NDArray where
  shape : List Nat
  dtype : String
  item : Nat → Int

/-- Embedding of `np.repeat(v, n)` on a scalar: a length-`n` 1-d array whose
every entry is `v` (numpy default integer dtype). -/
def np_repeat (v : Int) (n : Nat) : NDArray where
  shape := [n]
  dtype := "int64"
  item := fun _ => v

/-- Embedding of `ndarray.reshape`: a same-size reshape of a C-contiguous
array changes the shape and leaves the row-major data unchanged. -/
def NDArray.reshape (a : NDArray) (s : List Nat) : NDArray := { a with shape := s }

/-- Embedding of `np.zeros(shape, dtype)`. -/
def np_zeros (s : List Nat) (dt : String) : NDArray where
  shape := s
  dtype := dt
  item := fun _ => 0

/-- `img = np.repeat(0, 10000).reshape(100, 100)` (line 34). -/
def img : NDArray := (np_repeat 0 10000).reshape [100, 100]

/-- `img800 = np.repeat(0, 640000).reshape(800, 800)` (line 35). -/
def img800 : NDArray := (np_repeat 0 640000).reshape [800, 800]

/-- `transparent_img = np.zeros((100, 100, 4), dtype=np.uint8)` (line 46). -/
def transparent_img : NDArray := np_zeros [100, 100, 4] "uint8"

/-- A PIL image as used by the script: every PIL image it builds is a
solid-color image of a given mode and size. -/
structure PILImage where
  mode : String
  width : Nat
  height : Nat
  color : String
deriving DecidableEq

/-- Embedding of `PIL.Image.new(mode, size, color)`. -/
def Image.new (mode : String) (size : Nat × Nat) (color : String) : PILImage :=
  ⟨mode, size.1, size.2, color⟩

/-- RGB components of the named colors the script uses (CSS3 values, as PIL
resolves them). -/
def colorRGB : String → Int × Int × Int
  | "red" => (255, 0, 0)
  | "blue" => (0, 0, 255)
  | "green" => (0, 128, 0)
  | "white" => (255, 255, 255)
  | _ => (0, 0, 0)

/-- Component `i` (0 = R, 1 = G, 2 = B) of a named color. -/
def rgbComp (c : String) (i : Nat) : Int :=
  if i = 0 then (colorRGB c).1 else if i = 1 then (colorRGB c).2.1 else (colorRGB c).2.2

/-- Embedding of `np.array(im)` on a solid-color RGB-mode PIL image: an
H x W x 3 uint8 array whose channel `k % 3` of every pixel holds the
corresponding component of the fill color. -/
def np_array (im : PILImage) : NDArray where
  shape := [im.height, im.width, 3]
  dtype := "uint8"
  item := fun k => rgbComp im.color (k % 3)

/-- Embedding of Python `str.index(c)` on the strings used here (the needle
always occurs; str.index of an absent character would raise instead). -/
def strIndex (s : List Char) (c : Char) : Nat := s.findIdx (fun x => x = c)

/-- The index list `["BGR".index(s) for s in "RGB"]` (line 171). -/
def bgrIdx : List Nat := "RGB".toList.map (fun s => strIndex "BGR".toList s)

/-- Embedding of numpy fancy indexing `a[..., idx]` with an integer list on
the last axis: result shape replaces the last dimension by `idx.length`, and
flat entry `k` of the result is entry `(k / idx.length) * lastDim + idx[k %
idx.length]` of `a` (row-major). -/
def fancyLast (a : NDArray) (idx : List Nat) : NDArray where
  shape := a.shape.dropLast ++ [idx.length]
  dtype := a.dtype
  item := fun k =>
    a.item ((k / idx.length) * a.shape.getLastD 1 + idx.getD (k % idx.length) 0)

/-- `red_image = Image.new("RGB", (100, 100), color="red")` (line 170). -/
def red_image : PILImage := Image.new "RGB" (100, 100) "red"

/-- `red_bgr_img = np.array(red_image)[..., ["BGR".index(s) for s in "RGB"]]`
(line 171). -/
def red_bgr_img : NDArray := fancyLast (np_array red_image) bgrIdx

/-- One frame built inside `create_gif`: a `size` x `size` grayscale canvas
with a black ellipse whose bounding box runs from `pos` to
`pos + circle_size` in each coordinate (`circle_size` is the float
`size / 2`, embedded exactly as a rational). -/
structure GifFrame where
  size : Nat
  pos : Nat × Nat
  circle_size : Rat
deriving DecidableEq

/-- The GIF byte buffer produced by `images[0].save(..., format="GIF",
save_all=True, append_images=images[1:], duration=1)`: embedded by what the
encoder receives — the first frame, the appended frames, and the duration. -/
structure GifEncoding where
  first : GifFrame
  append_images : List GifFrame
  duration : Nat
deriving DecidableEq

/-- Embedding of `create_gif(size, frames=1)` (lines 52-79): builds one frame
per loop iteration `i in range(frames)`, with ellipse anchor `(i, i)` and
`circle_size = size / 2`, then saves frame 0 with the rest appended.  When
`frames = 0`, `images[0]` indexes an empty list and the call raises
(embedded as `none`). -/
def create_gif (size : Nat) (frames : Nat := 1) : Option GifEncoding :=
  let images : List GifFrame :=
    (List.range frames).map (fun i => ⟨size, (i, i), (size : Rat) / 2⟩)
  match images with
  | [] => none
  | f :: rest => some ⟨f, rest, 1⟩

/-- `gif = create_gif(64, frames=32)` (line 82); the call succeeds, so the
script's name `gif` is bound to the encoded buffer. -/
def gif : GifEncoding := (create_gif 64 32).get (by decide)

/-- The SVG string rendered at line 90 (triple-quoted literal, lines 91-97). -/
def svgMetaTags : String :=
  "<?xml version=\"1.0\" encoding=\"utf-8\"?>\n    <!-- Generator: Adobe Illustrator 17.1.0, SVG Export Plug-In . SVG Version: 6.00 Build 0)  -->\n    <!DOCTYPE svg PUBLIC \"-//W3C//DTD SVG 1.1//EN\" \"http://www.w3.org/Graphics/SVG/1.1/DTD/svg11.dtd\">\n    <svg xmlns=\"http://www.w3.org/2000/svg\" xmlns:xlink=\"http://www.w3.org/1999/xlink\" width=\"500\" height=\"100\">\n    <text x=\"0\" y=\"50\">\"I am prefixed with some meta tags</text>\n    </svg>\n"

/-- The SVG string rendered at line 102 (triple-quoted literal, lines 103-108). -/
def svgInlineRedCircle : String :=
  "\n<svg>\n  <circle cx=\"50\" cy=\"50\" r=\"40\" stroke=\"black\" stroke-width=\"3\" fill=\"red\" />\n  Sorry, your browser does not support inline SVG.\n</svg>\n"

/-- `SVG_RED_CIRCLE` (lines 112-117). -/
def SVG_RED_CIRCLE : String :=
  "\n<svg width=\"100\" height=\"100\" xmlns=\"http://www.w3.org/2000/svg\">\n  <circle cx=\"50\" cy=\"50\" r=\"40\" stroke=\"black\" stroke-width=\"3\" fill=\"red\" />\n  Sorry, your browser does not support inline SVG.\n</svg>\n"

/-- `SVG_YELLOW_GREEN_RECTANGLE` (lines 123-128), with the format placeholder
for `x` kept verbatim. -/
def SVG_YELLOW_GREEN_RECTANGLE : String :=
  "\n<svg viewBox=\"\x7bx\x7d 0 100 90\" xmlns=\"http://www.w3.org/2000/svg\">\n    <rect x=\"0\" y=\"0\" width=\"100\" height=\"90\" fill=\"yellow\" />\n    <rect x=\"100\" y=\"0\" width=\"100\" height=\"90\" fill=\"green\" />\n</svg>\n"

/-- Embedding of `s.format(x=n)` on the one template used here: replace the
`x` placeholder by the decimal rendering of `n`. -/
def pyFormatX (s : String) (n : Nat) : String := s.replace "\x7bx\x7d" (toString n)

/-- Embedding of `os.path.join` on a directory and a relative component
(POSIX join, as in the test environment). -/
def pathJoin (a b : String) : String := a ++ "/" ++ b

/-- `TEST_ASSETS_DIR` (lines 30-32), as a function of the directory of the
script file (`os.path.dirname(os.path.abspath(__file__))`). -/
def TEST_ASSETS_DIR (dir : String) : String := pathJoin dir "test_assets"

/-- `CAT_IMAGE = os.path.join(TEST_ASSETS_DIR, "cat.jpg")` (line 165). -/
def CAT_IMAGE (dir : String) : String := pathJoin (TEST_ASSETS_DIR dir) "cat.jpg"

/-- A Python value passed as a keyword option to a rendering call. -/
inductive PyVal where
  | str (s : String)
  | int (n : Int)
  | bool (b : Bool)
  | strList (l : List String)
deriving DecidableEq

/-- The image-like positional argument of a rendering call. -/
inductive ImageArg where
  | nparray (a : NDArray)
  | gifbytes (g : GifEncoding)
  | svg (s : String)
  | file (p : String)
  | pilList (l : List PILImage)

/-- The UI object a rendering call is issued on: the main page (`st.image`)
or one of the columns returned by `st.columns(4)` (`col1.image`, ...). -/
inductive RenderTarget where
  | main
  | col (i : Nat)
deriving DecidableEq

/-- One call the script issues into the UI framework. -/
inductive ScriptCall where
  | header (text : String)
  | columns (n : Nat)
  | image (tgt : RenderTarget) (arg : ImageArg) (opts : List (String × PyVal))

/-- True exactly on `header` calls. -/
def ScriptCall.isHeader : ScriptCall → Bool
  | .header _ => true
  | _ => false

/-- True exactly on `columns` calls. -/
def ScriptCall.isColumns : ScriptCall → Bool
  | .columns _ => true
  | _ => false

/-- True exactly on `image` rendering calls. -/
def ScriptCall.isImage : ScriptCall → Bool
  | .image _ _ _ => true
  | _ => false

/-- Everything the script could read from its environment.  The source reads
only the location of its own file (for `TEST_ASSETS_DIR`); a wall clock and a
random seed are included so that independence from them is expressible. -/
structure Env where
  fileDir : String
  clock : Nat
  seed : Nat

/-- The trace of calls the script issues, in textual order, each tagged with
its source line, as a function of the directory containing the script file.
This is the module body of `st_image.py` (lines 34-196): straight-line code,
one list entry per `st.header` / `st.columns` / image rendering call. -/
def scriptTrace (dir : String) : List (Nat × ScriptCall) :=
  [ (38, .header "Images from numpy arrays"),
    (40, .image .main (.nparray img)
      [("caption", .str "Black Square as JPEG."), ("output_format", .str "JPEG"),
       ("width", .int 100)]),
    (42, .image .main (.nparray img)
      [("caption", .str "Black Square as PNG."), ("output_format", .str "PNG"),
       ("width", .int 100)]),
    (44, .image .main (.nparray img)
      [("caption", .str "Black Square with no output format specified."),
       ("width", .int 100)]),
    (47, .image .main (.nparray transparent_img)
      [("caption", .str "Transparent Black Square."), ("width", .int 100)]),
    (49, .header "GIF images"),
    (84, .image .main (.gifbytes gif)
      [("caption", .str "Moving black circle."), ("width", .int 100)]),
    (85, .image .main (.gifbytes ((create_gif 64).get (by decide)))
      [("caption", .str "Black Circle as GIF."), ("width", .int 100)]),
    (86, .image .main (.gifbytes gif)
      [("caption", .str "GIF as PNG."), ("output_format", .str "PNG"),
       ("width", .int 100)]),
    (88, .header "SVG images"),
    (90, .image .main (.svg svgMetaTags)
      [("caption", .str "Text SVG with meta tags.")]),
    (102, .image .main (.svg svgInlineRedCircle)
      [("caption", .str "Red Circle.")]),
    (119, .image .main (.svg SVG_RED_CIRCLE)
      [("caption", .str "Red Circle with internal dimensions.")]),
    (120, .image .main (.svg SVG_RED_CIRCLE)
      [("width", .int 300), ("caption", .str "Red Circle with width 300.")]),
    (130, .image .main (.svg (pyFormatX SVG_YELLOW_GREEN_RECTANGLE 50))
      [("width", .int 100), ("caption", .str "Yellow Green Rectangle with x 50.")]),
    (135, .image .main (.svg (pyFormatX SVG_YELLOW_GREEN_RECTANGLE 50))
      [("width", .int 300),
       ("caption", .str "Yellow Green Rectangle with x 50 and width 300.")]),
    (141, .image .main (.svg (pyFormatX SVG_YELLOW_GREEN_RECTANGLE 0))
      [("width", .int 100), ("caption", .str "Yellow Green Rectangle with x 0.")]),
    (146, .image .main (.svg (pyFormatX SVG_YELLOW_GREEN_RECTANGLE 0))
      [("width", .int 300),
       ("caption", .str "Yellow Green Rectangle with x 0 and width 300.")]),
    (152, .image .main (.svg (pyFormatX SVG_YELLOW_GREEN_RECTANGLE 100))
      [("width", .int 100), ("caption", .str "Yellow Green Rectangle with x 100.")]),
    (157, .image .main (.svg (pyFormatX SVG_YELLOW_GREEN_RECTANGLE 100))
      [("width", .int 300),
       ("caption", .str "Yellow Green Rectangle with x 100 and width 300.")]),
    (163, .header "Image from file"),
    (166, .image .main (.file (CAT_IMAGE dir))
      [("caption", .str "Image from jpg file."), ("width", .int 200)]),
    (168, .header "channels parameter"),
    (172, .image .main (.nparray red_bgr_img)
      [("caption", .str "BGR channel (red)."), ("channels", .str "BGR"),
       ("width", .int 100)]),
    (173, .image .main (.nparray red_bgr_img)
      [("caption", .str "RGB channel (blue)."), ("channels", .str "RGB"),
       ("width", .int 100)]),
    (175, .header "use_column_width parameter"),
    (177, .columns 4),
    (178, .image (.col 1) (.nparray img) []),
    (179, .image (.col 1) (.nparray img) [("use_column_width", .str "auto")]),
    (180, .image (.col 1) (.nparray img) [("use_column_width", .str "never")]),
    (181, .image (.col 1) (.nparray img) [("use_column_width", .bool false)]),
    (183, .image (.col 2) (.nparray img) [("use_column_width", .str "always")]),
    (184, .image (.col 2) (.nparray img) [("use_column_width", .bool true)]),
    (185, .image (.col 2) (.nparray img800) [("use_column_width", .str "auto")]),
    (187, .header "List of images"),
    (189, .image .main
      (.pilList [Image.new "RGB" (64, 64) "red", Image.new "RGB" (64, 64) "blue",
                 Image.new "RGB" (64, 64) "green"])
      [("caption", .strList ((List.range 3).map (fun i => "Image list " ++ toString i)))]) ]

/-- The trace of one execution of the script in environment `e`: the source
reads nothing from the environment but the directory of its own file. -/
def script (e : Env) : List (Nat × ScriptCall) := scriptTrace e.fileDir

/-- The image rendering calls of a trace, in order:
(line, target, argument, options). -/
def imageCalls (t : List (Nat × ScriptCall)) :
    List (Nat × RenderTarget × ImageArg × List (String × PyVal)) :=
  t.filterMap (fun p =>
    match p.2 with
    | .image tgt arg opts => some (p.1, tgt, arg, opts)
    | _ => none)

/-- The argument of the (unique) image call tagged with source line `ln`. -/
def argAtLine (t : List (Nat × ScriptCall)) (ln : Nat) : Option ImageArg :=
  ((imageCalls t).find? (fun q => q.1 == ln)).map (fun q => q.2.2.1)

/-- Out-of-range placeholder for indexing into `imageCalls`. -/
def dummyCall : Nat × RenderTarget × ImageArg × List (String × PyVal) :=
  (0, .main, .svg "", [])

/-- A concrete environment (the script deployed at `/e2e`). -/
def e0 : Env := ⟨"/e2e", 0, 0⟩

/-- The source line of every call the script issues, in textual order. -/
def scriptLines : List Nat :=
  [38, 40, 42, 44, 47, 49, 84, 85, 86, 88, 90, 102, 119, 120, 130, 135, 141, 146,
   152, 157, 163, 166, 168, 172, 173, 175, 177, 178, 179, 180, 181, 183, 184, 185,
   187, 189]

/-- True exactly on numpy-array arguments. -/
def isArrayArg : ImageArg → Bool
  | .nparray _ => true
  | _ => false

/-- True exactly on encoded-GIF-bytes arguments. -/
def isGifArg : ImageArg → Bool
  | .gifbytes _ => true
  | _ => false

/-- True exactly on SVG-markup-string arguments. -/
def isSvgArg : ImageArg → Bool
  | .svg _ => true
  | _ => false

/-- True exactly on file-path arguments. -/
def isFileArg : ImageArg → Bool
  | .file _ => true
  | _ => false

/-- True exactly on image-list arguments. -/
def isListArg : ImageArg → Bool
  | .pilList _ => true
  | _ => false

/-- Whether an options list passes keyword `k` with value `v`. -/
def hasOpt (k : String) (v : PyVal) (opts : List (String × PyVal)) : Bool :=
  opts.any (fun p => p.1 == k && p.2 == v)

/-- Whether an options list passes keyword `k` at all. -/
def hasOptKey (k : String) (opts : List (String × PyVal)) : Bool :=
  opts.any (fun p => p.1 == k)

/-- The specification's constraint on a single rendering option: the keyword
is one of caption / width / output_format / channels / use_column_width, a
caption is a string or a list of strings, a width is an integer, an output
format is JPEG or PNG, a channel order is RGB or BGR, and a column-width
policy is a boolean or auto / never / always. -/
def optEntryOK : String × PyVal → Bool
  | ("caption", .str _) => true
  | ("caption", .strList _) => true
  | ("width", .int _) => true
  | ("output_format", .str s) => s == "JPEG" || s == "PNG"
  | ("channels", .str s) => s == "RGB" || s == "BGR"
  | ("use_column_width", .bool _) => true
  | ("use_column_width", .str s) => s == "auto" || s == "never" || s == "always"
  | _ => false

/-- A call is well-optioned when every option it passes satisfies
`optEntryOK` (non-rendering calls pass no options). -/
def callOptsOK : ScriptCall → Bool
  | .image _ _ opts => opts.all optEntryOK
  | _ => true

/-- Out-of-range placeholder for indexing into a trace. -/
def dummyEntry : Nat × ScriptCall := (0, .header "")

/-- Out-of-range placeholder for indexing into a frame list. -/
def dummyFrame : GifFrame := ⟨0, (0, 0), 0⟩

/-- Execution of a straight-line, handler-free module under an external API
that may raise: `fails c = true` means call `c` raises.  Calls run in order;
the first raising call is the last one executed and the run ends aborted
(`false`); with no raising call every call executes and the run completes
(`true`).  This is the operational semantics of the script, which installs
no exception handler. -/
def runScript (fails : ScriptCall → Bool) :
    List (Nat × ScriptCall) → List (Nat × ScriptCall) × Bool
  | [] => ([], true)
  | c :: rest =>
    if fails c.2 then ([c], false)
    else
      let r := runScript fails rest
      (c :: r.1, r.2)

/-- Indexing a mapped range: the `i`-th element is `f i`. -/
theorem getD_map_range {β : Type} (f : Nat → β) (n i : Nat) (d : β) (h : i < n) :
    ((List.range n).map f).getD i d = f i := by
  rw [List.getD_eq_getElem?_getD, List.getElem?_map, List.getElem?_range h]
  rfl

/-- Unfolding of `create_gif` at a positive frame count. -/
theorem create_gif_succ (size n : Nat) :
    create_gif size (n + 1) = some ⟨⟨size, (0, 0), (size : Rat) / 2⟩,
      (List.range n).map
        (fun i => (⟨size, (i + 1, i + 1), (size : Rat) / 2⟩ : GifFrame)), 1⟩ := by
  simp only [create_gif, List.range_succ_eq_map, List.map_cons, List.map_map]
  rfl

/-- If every call before index `i` succeeds and the call at `i` raises, the
run executes exactly the first `i + 1` calls and aborts. -/
theorem runScript_abort (fails : ScriptCall → Bool) (l : List (Nat × ScriptCall))
    (i : Nat) (h1 : i < l.length)
    (h2 : ∀ j, j < i → fails ((l.getD j dummyEntry).2) = false)
    (h3 : fails ((l.getD i dummyEntry).2) = true) :
    runScript fails l = (l.take (i + 1), false) := by
  induction l generalizing i with
  | nil => simp at h1
  | cons c rest ih =>
    cases i with
    | zero =>
      simp only [List.getD_cons_zero] at h3
      simp [runScript, h3]
    | succ i =>
      have hc : fails c.2 = false := by
        have := h2 0 (Nat.succ_pos i)
        simpa using this
      have h1' : i < rest.length := by simpa using h1
      have h2' : ∀ j, j < i → fails ((rest.getD j dummyEntry).2) = false := by
        intro j hj
        have := h2 (j + 1) (by omega)
        simpa using this
      have h3' : fails ((rest.getD i dummyEntry).2) = true := by
        simpa using h3
      simp only [runScript, hc, Bool.false_eq_true, if_false]
      rw [ih i h1' h2' h3']
      simp [List.take_succ_cons]

/-- The comprehension over the channel strings evaluates to `[2, 1, 0]`. -/
theorem bgrIdx_eq : bgrIdx = [2, 1, 0] := by decide

/-- Reindexing the last axis of an H x W x 3 array by `bgrIdx` swaps the
first and third channel of every pixel. -/
theorem bgr_swap (a : NDArray) (h w : Nat) (hs : a.shape = [h, w, 3])
    (p c : Nat) (hc : c < 3) :
    (fancyLast a bgrIdx).item (p * 3 + c) = a.item (p * 3 + (2 - c)) := by
  simp only [fancyLast, bgrIdx_eq, List.length_cons, List.length_nil, hs]
  have h1 : (p * 3 + c) / (0 + 1 + 1 + 1) = p := by omega
  have h2 : (p * 3 + c) % (0 + 1 + 1 + 1) = c := by omega
  rw [h1, h2]
  have hl : (([h, w, 3] : List Nat).getLastD 1) = 3 := rfl
  rw [hl]
  interval_cases c
  · norm_num
  · norm_num
  · norm_num

/-- Reindexing the last axis of an H x W x 3 array by `bgrIdx` twice gives
back the original array. -/
theorem bgr_selfinv (a : NDArray) (h w : Nat) (hs : a.shape = [h, w, 3]) :
    fancyLast (fancyLast a bgrIdx) bgrIdx = a := by
  obtain ⟨s, dt, it⟩ := a
  simp only at hs
  subst hs
  simp only [fancyLast, bgrIdx_eq, NDArray.mk.injEq, List.length_cons, List.length_nil]
  refine ⟨by simp, by trivial, ?_⟩
  funext k
  have h3 : (0 : Nat) + 1 + 1 + 1 = 3 := rfl
  rw [h3]
  have hl : (([h, w, 3] : List Nat).getLastD 1) = 3 := rfl
  have hl2 : ((([h, w, 3] : List Nat).dropLast ++ [3]).getLastD 1) = 3 := rfl
  rw [hl, hl2]
  have hm : k % 3 = 0 ∨ k % 3 = 1 ∨ k % 3 = 2 := by omega
  have g0 : List.getD [2, 1, 0] 0 0 = 2 := by decide
  have g1 : List.getD [2, 1, 0] 1 0 = 1 := by decide
  have g2 : List.getD [2, 1, 0] 2 0 = 0 := by decide
  rcases hm with hm | hm | hm
  · rw [hm, g0]
    have he1 : (k / 3 * 3 + 2) / 3 = k / 3 := by omega
    have he2 : (k / 3 * 3 + 2) % 3 = 2 := by omega
    rw [he1, he2, g2]
    congr 1
    omega
  · rw [hm, g1]
    have he1 : (k / 3 * 3 + 1) / 3 = k / 3 := by omega
    have he2 : (k / 3 * 3 + 1) % 3 = 1 := by omega
    rw [he1, he2, g1]
    congr 1
    omega
  · rw [hm, g2]
    have he1 : (k / 3 * 3 + 0) / 3 = k / 3 := by omega
    have he2 : (k / 3 * 3 + 0) % 3 = 0 := by omega
    rw [he1, he2, g0]
    congr 1
    omega

/-- Every flat entry of `red_bgr_img`: 255 on the third channel of each
pixel, 0 elsewhere. -/
theorem red_bgr_item (k : Nat) :
    red_bgr_img.item k = if k % 3 = 2 then 255 else 0 := by
  simp only [red_bgr_img, fancyLast, np_array, bgrIdx_eq, List.length_cons,
    List.length_nil, red_image, Image.new]
  have h3 : (0 : Nat) + 1 + 1 + 1 = 3 := rfl
  rw [h3]
  have hl : (([(100 : Nat), 100, 3] : List Nat).getLastD 1) = 3 := rfl
  rw [hl]
  have hm : k % 3 = 0 ∨ k % 3 = 1 ∨ k % 3 = 2 := by omega
  have g0 : List.getD [2, 1, 0] 0 0 = 2 := by decide
  have g1 : List.getD [2, 1, 0] 1 0 = 1 := by decide
  have g2 : List.getD [2, 1, 0] 2 0 = 0 := by decide
  rcases hm with hm | hm | hm
  · rw [hm, g0]
    have he : (k / 3 * 3 + 2) % 3 = 2 := by omega
    rw [he]
    decide
  · rw [hm, g1]
    have he : (k / 3 * 3 + 1) % 3 = 1 := by omega
    rw [he]
    decide
  · rw [hm, g2]
    have he : (k / 3 * 3 + 0) % 3 = 0 := by omega
    rw [he]
    decide

/-- Pixelwise value of `red_bgr_img` at a raster position. -/
theorem red_pixels (i j : Nat) :
    red_bgr_img.item ((i * 100 + j) * 3) = 0 ∧
    red_bgr_img.item ((i * 100 + j) * 3 + 1) = 0 ∧
    red_bgr_img.item ((i * 100 + j) * 3 + 2) = 255 := by
  refine ⟨?_, ?_, ?_⟩
  · rw [red_bgr_item]
    have h0 : (i * 100 + j) * 3 % 3 = 0 := by omega
    rw [h0]
    norm_num
  · rw [red_bgr_item]
    have h1 : ((i * 100 + j) * 3 + 1) % 3 = 1 := by omega
    rw [h1]
    norm_num
  · rw [red_bgr_item]
    have h2 : ((i * 100 + j) * 3 + 2) % 3 = 2 := by omega
    rw [h2]
    norm_num

/-- C1 (counterexample): it is false that no image-like value is passed to
the rendering API more than once — in the concrete environment `e0`, the
image calls at positions 0 and 1 (source lines 40 and 42) both receive the
array `img`, refuting injectivity of the position-to-argument map. -/
theorem img_passed_to_two_render_calls :
    ¬ (∀ i j : Nat, i < (imageCalls (script e0)).length →
        j < (imageCalls (script e0)).length →
        ((imageCalls (script e0)).getD i dummyCall).2.2.1 =
          ((imageCalls (script e0)).getD j dummyCall).2.2.1 →
        i = j) := by
  intro hall
  have h01 := hall 0 1 (by decide) (by decide) rfl
  exact absurd h01 (by decide)

/-- C1 (amended): every image-like value the script constructs is passed to
at least one rendering call — each named value appears as the argument of an
image call of the trace, in every environment (several of them, such as
`img`, `gif`, `red_bgr_img` and `SVG_RED_CIRCLE`, appear more than once). -/
theorem every_value_rendered_at_least_once (e : Env) :
    argAtLine (script e) 40 = some (.nparray img) ∧
    argAtLine (script e) 47 = some (.nparray transparent_img) ∧
    argAtLine (script e) 84 = some (.gifbytes gif) ∧
    argAtLine (script e) 85 = some (.gifbytes ((create_gif 64).get (by decide))) ∧
    argAtLine (script e) 90 = some (.svg svgMetaTags) ∧
    argAtLine (script e) 102 = some (.svg svgInlineRedCircle) ∧
    argAtLine (script e) 119 = some (.svg SVG_RED_CIRCLE) ∧
    argAtLine (script e) 130 = some (.svg (pyFormatX SVG_YELLOW_GREEN_RECTANGLE 50)) ∧
    argAtLine (script e) 141 = some (.svg (pyFormatX SVG_YELLOW_GREEN_RECTANGLE 0)) ∧
    argAtLine (script e) 152 = some (.svg (pyFormatX SVG_YELLOW_GREEN_RECTANGLE 100)) ∧
    argAtLine (script e) 166 = some (.file (CAT_IMAGE e.fileDir)) ∧
    argAtLine (script e) 172 = some (.nparray red_bgr_img) ∧
    argAtLine (script e) 185 = some (.nparray img800) ∧
    argAtLine (script e) 189 = some (.pilList
      [Image.new "RGB" (64, 64) "red", Image.new "RGB" (64, 64) "blue",
       Image.new "RGB" (64, 64) "green"]) :=
  ⟨rfl, rfl, rfl, rfl, rfl, rfl, rfl, rfl, rfl, rfl, rfl, rfl, rfl, rfl⟩

/-- C2: in every environment, the script issues the same fixed sequence of
calls — the source line of the issued calls is the strictly increasing list
`scriptLines` (so each call runs exactly once, in textual order, none
skipped or repeated), comprising 7 header calls, 1 columns call and 28 image
rendering calls. -/
theorem script_calls_in_textual_order (e : Env) :
    (script e).map Prod.fst = scriptLines ∧
    scriptLines.Pairwise (fun a b => a < b) ∧
    ((script e).filter (fun p => p.2.isHeader)).length = 7 ∧
    ((script e).filter (fun p => p.2.isColumns)).length = 1 ∧
    ((script e).filter (fun p => p.2.isImage)).length = 28 :=
  ⟨rfl, by decide, rfl, rfl, rfl⟩

/-- C3: the script is deterministic — two executions whose environments
agree on the location of the script file (whatever their clocks and random
seeds) issue the identical trace of rendering calls, arguments and options. -/
theorem script_deterministic (e1 e2 : Env) (h : e1.fileDir = e2.fileDir) :
    script e1 = script e2 := by
  show scriptTrace e1.fileDir = scriptTrace e2.fileDir
  rw [h]

/-- Witness for C3: two environments with the same file location but
different clocks and seeds yield the same trace. -/
theorem script_deterministic_witness :
    (Env.mk "/e2e" 0 0).fileDir = (Env.mk "/e2e" 3 7).fileDir ∧
    script (Env.mk "/e2e" 0 0) = script (Env.mk "/e2e" 3 7) :=
  ⟨rfl, script_deterministic (Env.mk "/e2e" 0 0) (Env.mk "/e2e" 3 7) rfl⟩

/-- C4: the script installs no exception handler, so if the calls before
index `i` succeed and the call at index `i` raises, the execution consists
of exactly the first `i + 1` calls and aborts — every later rendering call
is unexecuted. -/
theorem uncaught_failure_aborts_script (e : Env) (fails : ScriptCall → Bool)
    (i : Nat) (h1 : i < (script e).length)
    (h2 : ∀ j, j < i → fails (((script e).getD j dummyEntry).2) = false)
    (h3 : fails (((script e).getD i dummyEntry).2) = true) :
    runScript fails (script e) = ((script e).take (i + 1), false) :=
  runScript_abort fails (script e) i h1 h2 h3

/-- Witness for C4: in environment `e0`, under an API where the very first
call (a header) raises, only that call executes and the run aborts. -/
theorem uncaught_failure_aborts_script_witness :
    (0 < (script e0).length) ∧
    runScript (fun c => c.isHeader) (script e0) = ((script e0).take 1, false) :=
  ⟨by decide,
   uncaught_failure_aborts_script e0 (fun c => c.isHeader) 0 (by decide)
     (fun j hj => absurd hj (Nat.not_lt_zero j)) (by rfl)⟩

/-- C5: in every environment the script renders at least one numpy array, one
GIF byte buffer, one SVG string, one file path and one list of images, and it
exercises both channel orderings, explicit widths and every column-width
policy value. -/
theorem script_covers_input_kinds (e : Env) :
    ((imageCalls (script e)).any (fun c => isArrayArg c.2.2.1)) = true ∧
    ((imageCalls (script e)).any (fun c => isGifArg c.2.2.1)) = true ∧
    ((imageCalls (script e)).any (fun c => isSvgArg c.2.2.1)) = true ∧
    ((imageCalls (script e)).any (fun c => isFileArg c.2.2.1)) = true ∧
    ((imageCalls (script e)).any (fun c => isListArg c.2.2.1)) = true ∧
    ((imageCalls (script e)).any (fun c => hasOpt "channels" (.str "RGB") c.2.2.2)) = true ∧
    ((imageCalls (script e)).any (fun c => hasOpt "channels" (.str "BGR") c.2.2.2)) = true ∧
    ((imageCalls (script e)).any (fun c => hasOptKey "width" c.2.2.2)) = true ∧
    ((imageCalls (script e)).any (fun c => hasOpt "use_column_width" (.str "auto") c.2.2.2)) = true ∧
    ((imageCalls (script e)).any (fun c => hasOpt "use_column_width" (.str "never") c.2.2.2)) = true ∧
    ((imageCalls (script e)).any (fun c => hasOpt "use_column_width" (.str "always") c.2.2.2)) = true ∧
    ((imageCalls (script e)).any (fun c => hasOpt "use_column_width" (.bool false) c.2.2.2)) = true ∧
    ((imageCalls (script e)).any (fun c => hasOpt "use_column_width" (.bool true) c.2.2.2)) = true :=
  ⟨rfl, rfl, rfl, rfl, rfl, rfl, rfl, rfl, rfl, rfl, rfl, rfl, rfl⟩

/-- C6: in every environment, every rendering call of the script passes only
options drawn from caption / width / output_format / channels /
use_column_width, with captions a string or list of strings, widths
integers, output formats among JPEG and PNG, channel orders among RGB and
BGR, and column-width policies a boolean or one of auto / never / always. -/
theorem render_opts_well_formed (e : Env) :
    (script e).all (fun p => callOptsOK p.2) = true := rfl

/-- C7: no image buffer is mutated between rendering calls — every call that
receives `img` (lines 40, 42, 44, 178-184) receives the identical array, and
likewise for `gif` (lines 84, 86), `red_bgr_img` (lines 172, 173) and
`SVG_RED_CIRCLE` (lines 119, 120), in every environment. -/
theorem image_buffers_constant_across_calls (e : Env) :
    argAtLine (script e) 40 = some (.nparray img) ∧
    argAtLine (script e) 42 = some (.nparray img) ∧
    argAtLine (script e) 44 = some (.nparray img) ∧
    argAtLine (script e) 178 = some (.nparray img) ∧
    argAtLine (script e) 179 = some (.nparray img) ∧
    argAtLine (script e) 180 = some (.nparray img) ∧
    argAtLine (script e) 181 = some (.nparray img) ∧
    argAtLine (script e) 183 = some (.nparray img) ∧
    argAtLine (script e) 184 = some (.nparray img) ∧
    argAtLine (script e) 84 = some (.gifbytes gif) ∧
    argAtLine (script e) 86 = some (.gifbytes gif) ∧
    argAtLine (script e) 172 = some (.nparray red_bgr_img) ∧
    argAtLine (script e) 173 = some (.nparray red_bgr_img) ∧
    argAtLine (script e) 119 = some (.svg SVG_RED_CIRCLE) ∧
    argAtLine (script e) 120 = some (.svg SVG_RED_CIRCLE) :=
  ⟨rfl, rfl, rfl, rfl, rfl, rfl, rfl, rfl, rfl, rfl, rfl, rfl, rfl, rfl, rfl⟩

/-- C8: `create_gif size frames` raises for `frames = 0` (the `images[0]`
index on an empty list), and for `frames ≥ 1` it encodes exactly `frames`
frame images, the `i`-th drawn with an ellipse anchored at `(i, i)` of
diameter `size / 2`. -/
theorem create_gif_frame_spec (size frames : Nat) :
    (frames = 0 → create_gif size frames = none) ∧
    (1 ≤ frames → ∃ g, create_gif size frames = some g ∧
      (g.first :: g.append_images).length = frames ∧
      ∀ i, i < frames →
        (g.first :: g.append_images).getD i dummyFrame =
          ⟨size, (i, i), (size : Rat) / 2⟩) := by
  constructor
  · intro h
    subst h
    rfl
  · intro h
    match frames, h with
    | n + 1, _ =>
      refine ⟨⟨⟨size, (0, 0), (size : Rat) / 2⟩,
        (List.range n).map
          (fun i => (⟨size, (i + 1, i + 1), (size : Rat) / 2⟩ : GifFrame)), 1⟩,
        create_gif_succ size n, ?_, ?_⟩
      · simp
      · intro i hi
        cases i with
        | zero => rfl
        | succ i =>
          show ((List.range n).map
              (fun i => (⟨size, (i + 1, i + 1), (size : Rat) / 2⟩ : GifFrame))).getD
            i dummyFrame = _
          rw [getD_map_range _ n i _ (by omega)]

/-- Witness for C8: at the script's own call `create_gif 64 32`, the GIF
holds 32 frames with the stated geometry, and `create_gif 64 0` fails. -/
theorem create_gif_frame_spec_witness :
    ((1 : Nat) ≤ 32) ∧ (create_gif 64 0 = none) ∧
    (∃ g, create_gif 64 32 = some g ∧
      (g.first :: g.append_images).length = 32 ∧
      ∀ i, i < 32 →
        (g.first :: g.append_images).getD i dummyFrame =
          ⟨64, (i, i), (64 : Rat) / 2⟩) :=
  ⟨by decide, (create_gif_frame_spec 64 0).1 rfl,
   (create_gif_frame_spec 64 32).2 (by decide)⟩

/-- C9: the channel index list `["BGR".index(s) for s in "RGB"]` is
`[2, 1, 0]`; applied to the last axis of any H x W x 3 array it swaps the
first and third channels; applied twice it returns the original array; and
consequently every pixel of `red_bgr_img` holds the value `(0, 0, 255)` —
the red image with its channels reversed. -/
theorem bgr_reindex_spec :
    bgrIdx = [2, 1, 0] ∧
    (∀ (a : NDArray) (h w : Nat), a.shape = [h, w, 3] →
      fancyLast (fancyLast a bgrIdx) bgrIdx = a) ∧
    (∀ (a : NDArray) (h w : Nat), a.shape = [h, w, 3] → ∀ p c, c < 3 →
      (fancyLast a bgrIdx).item (p * 3 + c) = a.item (p * 3 + (2 - c))) ∧
    (∀ i j, i < 100 → j < 100 →
      red_bgr_img.item ((i * 100 + j) * 3) = 0 ∧
      red_bgr_img.item ((i * 100 + j) * 3 + 1) = 0 ∧
      red_bgr_img.item ((i * 100 + j) * 3 + 2) = 255) :=
  ⟨bgrIdx_eq,
   fun a h w hs => bgr_selfinv a h w hs,
   fun a h w hs p c hc => bgr_swap a h w hs p c hc,
   fun i j _ _ => red_pixels i j⟩

/-- Witness for C9: the self-inverse, swap and pixel-value facts
instantiated at the script's own red image and the origin pixel. -/
theorem bgr_reindex_spec_witness :
    ((np_array red_image).shape = [100, 100, 3]) ∧
    fancyLast (fancyLast (np_array red_image) bgrIdx) bgrIdx = np_array red_image ∧
    ((0 : Nat) < 3) ∧
    (fancyLast (np_array red_image) bgrIdx).item (0 * 3 + 0) =
      (np_array red_image).item (0 * 3 + (2 - 0)) ∧
    ((0 : Nat) < 100) ∧
    (red_bgr_img.item ((0 * 100 + 0) * 3) = 0 ∧
     red_bgr_img.item ((0 * 100 + 0) * 3 + 1) = 0 ∧
     red_bgr_img.item ((0 * 100 + 0) * 3 + 2) = 255) :=
  ⟨rfl,
   bgr_reindex_spec.2.1 (np_array red_image) 100 100 rfl,
   by decide,
   bgr_reindex_spec.2.2.1 (np_array red_image) 100 100 rfl 0 0 (by decide),
   by decide,
   bgr_reindex_spec.2.2.2 0 0 (by decide) (by decide)⟩

/-- C10: the constructed test arrays are uniformly zero with their
advertised shapes — `img` is 100 x 100 and all zero, `img800` is 800 x 800
and all zero, and `transparent_img` is 100 x 100 x 4 of dtype uint8 and all
zero. -/
theorem test_arrays_zero_spec :
    img.shape = [100, 100] ∧
    (∀ k, k < 10000 → img.item k = 0) ∧
    img800.shape = [800, 800] ∧
    (∀ k, k < 640000 → img800.item k = 0) ∧
    transparent_img.shape = [100, 100, 4] ∧
    transparent_img.dtype = "uint8" ∧
    (∀ k, k < 40000 → transparent_img.item k = 0) :=
  ⟨rfl, fun _ _ => rfl, rfl, fun _ _ => rfl, rfl, rfl, fun _ _ => rfl⟩

/-- Witness for C10: the zero-entry facts instantiated at flat index 0. -/
theorem test_arrays_zero_spec_witness :
    ((0 : Nat) < 10000) ∧ img.item 0 = 0 ∧ img800.item 0 = 0 ∧
    transparent_img.item 0 = 0 :=
  ⟨by decide,
   test_arrays_zero_spec.2.1 0 (by decide),
   test_arrays_zero_spec.2.2.2.1 0 (by decide),
   test_arrays_zero_spec.2.2.2.2.2.2 0 (by decide)⟩
